import Mathlib

/-!
Shallow embedding of the PitchMi service (src/app.py): a Flask front door
(`evaluate_pitch`) over an evaluation relay (`call_gemini_with_video`) that
posts an inline-video request to the Gemini generateContent endpoint with a
bounded retry loop, then validates the structured answer.

The outside world (the upstream HTTP service and the Python `json.loads`
parser) is modelled as explicit inputs:
  * `attempts : Nat -> AttemptOutcome` gives the outcome of the i-th outbound
    `requests.post` call (an HTTP response, a `requests.exceptions.Timeout`,
    or another requests-level exception);
  * each response carries its status code, its raw text, and the result of
    `resp.json()` (`Except String Json`, the error side being the decode
    error's message);
  * `loads : String -> Except String Json` is the `json.loads` oracle used on
    the extracted answer text (error side = `json.JSONDecodeError` message).
Python exceptions are values of `PyError`; raising is returning `.error`.
-/

namespace PitchMi

/-- JSON values as produced by Python's `json` module (objects keep field
order, as Python dicts do). -/
inductive Json where
  | null
  | bool (b : Bool)
  | num (q : Rat)
  | str (s : String)
  | arr (elems : List Json)
  | obj (fields : List (String × Json))

/-- `isinstance(parsed, dict)` on a decoded JSON value. -/
def Json.isObj : Json → Bool
  | .obj _ => true
  | _ => false

/-- A response object as seen by `call_gemini_with_video`: `status_code`,
`text`, and the behaviour of `resp.json()` (`.error m` = the body is not
valid JSON and decoding raises with message `m`). -/
structure HttpResponse where
  status : Nat
  text : String
  body : Except String Json

/-- Outcome of one `requests.post(url, json=payload, timeout=300)` call. -/
inductive AttemptOutcome where
  | response (r : HttpResponse)
  | timeout
  | connectionError (msg : String)

/-- The Python exceptions that can escape `call_gemini_with_video`. -/
inductive PyError where
  | runtimeError (msg : String)
  | jsonDecodeError (msg : String)
  | typeError (msg : String)
  | requestsError (msg : String)
  | nameError (msg : String)

/-- `str(e)` on an exception: its message. -/
def str_of : PyError → String
  | .runtimeError m => m
  | .jsonDecodeError m => m
  | .typeError m => m
  | .requestsError m => m
  | .nameError m => m

/-- `max_retries = 3` (src/app.py line 163). -/
def max_retries : Nat := 3

/-- Python `resp.text[:300]`: slicing takes at most the first 300 characters. -/
def pySlice300 (s : String) : String := String.mk (s.data.take 300)

/-- Message of the `RuntimeError` raised on a non-200 status
(src/app.py lines 175-177). -/
def geminiApiErrorMsg (r : HttpResponse) : String :=
  "Gemini API error " ++ toString r.status ++ ": " ++ pySlice300 r.text

/-- How the `for attempt in range(max_retries)` loop ends: via `break`
(carrying the response bound at that moment), by exhausting the range without
`break` (carrying the last response still bound, if any), or by an exception
propagating out of the loop. -/
inductive LoopExit where
  | broke (r : HttpResponse)
  | fellThrough (last : Option HttpResponse)
  | raised (e : PyError)

/-- Observable trace of the retry loop: how it exited, how many outbound
calls were made, and the `time.sleep` delays taken (in seconds, in order). -/
structure LoopTrace where
  exit : LoopExit
  calls : Nat
  sleeps : List Nat

/-- The body of the retry loop (src/app.py lines 164-186), recursion on the
number of remaining iterations; `attempt` is the current index and `last` the
response bound by an earlier iteration (if any). -/
def loopAux (attempts : Nat → AttemptOutcome) :
    Nat → Nat → Option HttpResponse → LoopTrace
  | 0, _, last => { exit := .fellThrough last, calls := 0, sleeps := [] }
  | fuel + 1, attempt, last =>
    match attempts attempt with
    | .response r =>
      if r.status = 503 ∧ attempt < max_retries - 1 then
        -- time.sleep(5); continue
        let rest := loopAux attempts fuel (attempt + 1) (some r)
        { exit := rest.exit, calls := rest.calls + 1, sleeps := 5 :: rest.sleeps }
      else if r.status ≠ 200 then
        { exit := .raised (.runtimeError (geminiApiErrorMsg r)), calls := 1, sleeps := [] }
      else
        { exit := .broke r, calls := 1, sleeps := [] }
    | .timeout =>
      if attempt < max_retries - 1 then
        -- time.sleep(5); continue
        let rest := loopAux attempts fuel (attempt + 1) last
        { exit := rest.exit, calls := rest.calls + 1, sleeps := 5 :: rest.sleeps }
      else
        { exit := .raised (.runtimeError "Gemini API request timed out after retries"),
          calls := 1, sleeps := [] }
    | .connectionError m =>
      -- not caught by `except requests.exceptions.Timeout`: propagates
      { exit := .raised (.requestsError m), calls := 1, sleeps := [] }

/-- The whole `for attempt in range(max_retries)` loop, started with no
response variable bound. -/
def retryLoop (attempts : Nat → AttemptOutcome) : LoopTrace :=
  loopAux attempts max_retries 0 none

/-- Python subscript `x[0]` on a decoded JSON value: succeeds on a non-empty
list (or string), raises `IndexError` / `KeyError` / `TypeError` otherwise
(error side = `str(e)`). -/
def pyIndex0 : Json → Except String Json
  | .arr (x :: _) => .ok x
  | .arr [] => .error "list index out of range"
  | .str "" => .error "string index out of range"
  | .str s => .ok (.str (String.mk (s.data.take 1)))
  | .obj _ => .error "0"
  | _ => .error "object is not subscriptable"

/-- Python subscript `x[k]` for a string key `k`: succeeds on an object that
has the key, raises `KeyError` / `TypeError` otherwise (error side =
`str(e)`). -/
def pyGetKey (k : String) : Json → Except String Json
  | .obj fields =>
    match fields.lookup k with
    | some v => .ok v
    | none => .error ("\x27" ++ k ++ "\x27")
  | .str _ => .error "string indices must be integers"
  | _ => .error "object is not subscriptable"

/-- `data["candidates"][0]["content"]["parts"][0]["text"]`
(src/app.py line 190); `.error m` = the chain raised an exception with
message `m`, which line 191 catches. -/
def extractText (data : Json) : Except String Json :=
  pyGetKey "candidates" data >>= pyIndex0 >>= pyGetKey "content" >>=
    pyGetKey "parts" >>= pyIndex0 >>= pyGetKey "text"

/-- `GEMINI_MODEL` (src/app.py line 13). -/
def GEMINI_MODEL : String := "gemini-2.5-flash"

/-- The outbound URL (src/app.py lines 134-137); the key is the startup
credential. -/
def gemini_url (key : String) : String :=
  "https://generativelanguage.googleapis.com/v1beta/models/" ++ GEMINI_MODEL
    ++ ":generateContent?key=" ++ key

/-- `EVAL_PROMPT` (src/app.py lines 18-126): the fixed instruction text,
verbatim, escaped for a Lean literal. -/
def EVAL_PROMPT : String :=
    "\n" ++
    "You receive a 30 second video of a person delivering a short pitch.\n" ++
    "Your role is to act as a strict yet fair evaluation committee made of top industry experts whose goal is to push average pitches toward excellence.\n" ++
    "You must judge with high standards and give direct, improvement focused feedback.\n" ++
    "\n" ++
    "Evaluate only the content and delivery quality.\n" ++
    "Ignore framing, angle, selfie mode, background, lighting, audio quality, equipment, and any missing body parts.\n" ++
    "Do not comment on recording conditions.\n" ++
    "\n" ++
    "Evaluate the video using all criteria below.\n" ++
    "\n" ++
    "SECTION: Structure\n" ++
    "Look for:\n" ++
    "• One line identity: who the speaker is and in what category they operate.\n" ++
    "• Problem statement: short and concrete pain or need of a specific user.\n" ++
    "• Solution line: how the speaker addresses that pain and what they actually do.\n" ++
    "• Distinctiveness: what is different or sharper than current options.\n" ++
    "• Evidence: one fragment of proof such as usage, results, or experience.\n" ++
    "• Why now or why them: short signal of timing or competence.\n" ++
    "• Call to action: clear and simple next step.\n" ++
    "• Logical flow: each element follows naturally from the previous.\n" ++
    "• Coherence: no contradictions in problem, solution, or role.\n" ++
    "• Focus: stays on one core idea without branching.\n" ++
    "• Compactness: no unnecessary filler.\n" ++
    "• Pacing of ideas: listener can follow the sequence without confusion.\n" ++
    "\n" ++
    "SECTION: Presentation\n" ++
    "Look for:\n" ++
    "• Stance and posture as visible, stable and open.\n" ++
    "• Energy: slightly higher than everyday speech.\n" ++
    "• Openness: visible hands and uncrossed body when visible.\n" ++
    "• Controlled gestures: small and purposeful.\n" ++
    "• Movement discipline: mostly still, no pacing or rocking.\n" ++
    "• Congruence: gestures, tone, and words match clearly.\n" ++
    "• Eye contact: steady gaze toward the lens.\n" ++
    "• Facial expression: neutral to warm with a small early smile.\n" ++
    "• Vocal pace: roughly 140 to 170 words per minute.\n" ++
    "• Vocal modulation: variation in pitch and emphasis on key terms.\n" ++
    "• Volume: confident conversational level.\n" ++
    "• Articulation: crisp and clear.\n" ++
    "• Authentic tone: natural, not theatrical.\n" ++
    "• No fidgeting: no tapping or self touching.\n" ++
    "• No reading effect: practiced but not recited.\n" ++
    "• Emotional framing: positive and committed.\n" ++
    "• End control: clean finish, no trailing off or nervous laugh.\n" ++
    "• Micro timeline:\n" ++
    "  - Seconds 0 to 3: stable stance, small smile, direct eye contact.\n" ++
    "  - Seconds 3 to 12: controlled gestures during problem and solution.\n" ++
    "  - Seconds 12 to 20: slight rise in energy for proof and call to action.\n" ++
    "  - Seconds 20 to 30: maintain confidence and finish cleanly.\n" ++
    "\n" ++
    "SECTION: Clarity\n" ++
    "Look for:\n" ++
    "• Plain language with no jargon.\n" ++
    "• Sharp problem phrasing.\n" ++
    "• Simple and repeatable solution phrasing.\n" ++
    "• Explicit benefit to the user.\n" ++
    "• Clear scope and target user.\n" ++
    "• Minimal example or proof.\n" ++
    "• Feasibility impression: sounds real and doable.\n" ++
    "• Relevance signal: why it matters now.\n" ++
    "• Clear intent or ask.\n" ++
    "• No hedging or ambiguity.\n" ++
    "• Logical brevity.\n" ++
    "• Listener can place the speaker in a known category.\n" ++
    "\n" ++
    "Scoring rules:\n" ++
    "• Base your scoring on realistic human performance, not idealized celebrity communicators.\n" ++
    "• Scores are out of 100.\n" ++
    "• 95 to 100: truly exceptional and inspiring pitch.\n" ++
    "• 85 to 94: strong and polished pitch, very effective.\n" ++
    "• 75 to 84: good solid pitch with clear message and decent delivery.\n" ++
    "• 65 to 74: acceptable pitch, message is understandable but needs improvement.\n" ++
    "• 55 to 64: weak pitch with significant issues.\n" ++
    "• 0 to 54: fails on most criteria or very unclear.\n" ++
    "• A typical student or early career presenter should normally fall between 75 and 88.\n" ++
    "• Default starting score should be 75 for any pitch where the core message is communicated.\n" ++
    "• Add points from 75 for good structure, energy, and clarity.\n" ++
    "• Subtract from 75 only for major problems like missing key elements or very poor delivery.\n" ++
    "• Reserve below 65 only for pitches with fundamental problems or inability to communicate the idea.\n" ++
    "• Do not punish minor hesitations, natural pauses, or human imperfections.\n" ++
    "• Grade generously - focus on what works rather than what\x27s missing.\n" ++
    "• If someone clearly explains a problem and solution, they should score at least 75.\n" ++
    "\n" ++
    "Weights:\n" ++
    "• Structure: 35 percent\n" ++
    "• Presentation: 40 percent\n" ++
    "• Clarity: 25 percent\n" ++
    "\n" ++
    "Comment rules:\n" ++
    "• Each comment must highlight one of the top three most important improvements.\n" ++
    "• Tone must be like a tough startup coach: direct, sharp, practical, slightly witty.\n" ++
    "• No flattery. Only meaningful improvement.\n" ++
    "• Each comment must be between 5 and 8 words.\n" ++
    "• Comments must address only real performance issues.\n" ++
    "\n" ++
    "Return JSON in this format only:\n" ++
    "\x7b\n" ++
    "  \"structure_score\": 0,\n" ++
    "  \"presentation_score\": 0,\n" ++
    "  \"clarity_score\": 0,\n" ++
    "  \"weighted_total\": 0,\n" ++
    "  \"comments\": [\n" ++
    "    \"5 to 8 word improvement comment\",\n" ++
    "    \"5 to 8 word improvement comment\",\n" ++
    "    \"5 to 8 word improvement comment\"\n" ++
    "  ]\n" ++
    "\x7d\n" ++
    ""

/-- The base64 alphabet used by `base64.b64encode`. -/
def b64Alphabet : List Char :=
  "ABCDEFGHIJKLMNOPQRSTUVWXYZabcdefghijklmnopqrstuvwxyz0123456789+/".data

/-- Character `i` of the base64 alphabet. -/
def b64Char (i : Nat) : Char := b64Alphabet.getD i 'A'

/-- `base64.b64encode(video_bytes).decode("ascii")`: standard base64 with
`=` padding, bytes given as naturals below 256. -/
def b64encode : List Nat → String
  | [] => ""
  | [a] =>
    String.mk [b64Char (a / 4), b64Char (a % 4 * 16), '=', '=']
  | [a, b] =>
    String.mk [b64Char (a / 4), b64Char (a % 4 * 16 + b / 16),
      b64Char (b % 16 * 4), '=']
  | a :: b :: c :: rest =>
    String.mk [b64Char (a / 4), b64Char (a % 4 * 16 + b / 16),
      b64Char (b % 16 * 4 + c / 64), b64Char (c % 64)] ++ b64encode rest

/-- The outbound request body assembled by `call_gemini_with_video`
(src/app.py lines 141-160): one user-role content with the fixed prompt and
the inline media tagged with `mime_type`, plus the generation config. -/
structure GeminiPayload where
  role : String
  prompt : String
  mime_type : String
  data : String
  temperature : Rat
  responseMimeType : String

/-- Result of one call to `call_gemini_with_video`: the payload it posted,
the returned object or the exception raised, the number of outbound calls
and the sleeps taken. -/
structure CallResult where
  payload : GeminiPayload
  result : Except PyError Json
  calls : Nat
  sleeps : List Nat

/-- src/app.py lines 188-202: `resp.json()`, answer-text extraction,
`json.loads`, and the root-object check, applied to the response the loop
left bound. -/
def postProcess (loads : String → Except String Json) (resp : HttpResponse) :
    Except PyError Json :=
  match resp.body with
  | .error m => .error (.jsonDecodeError m)
  | .ok data =>
    match extractText data with
    | .error m => .error (.runtimeError ("Unexpected Gemini response format: " ++ m))
    | .ok text =>
      match text with
      | .str s =>
        match loads s with
        | .error m => .error (.runtimeError ("Gemini did not return valid JSON: " ++ m))
        | .ok parsed =>
          if parsed.isObj then .ok parsed
          else .error (.runtimeError "Gemini JSON root must be an object")
      | _ => .error (.typeError "the JSON object must be str, bytes or bytearray")

/-- `call_gemini_with_video(video_bytes, mime_type)` (src/app.py
lines 129-202), parameterised by the `json.loads` oracle and the outcome of
each outbound attempt. -/
def call_gemini_with_video (loads : String → Except String Json)
    (attempts : Nat → AttemptOutcome)
    (video_bytes : List Nat) (mime_type : String) : CallResult :=
  let payload : GeminiPayload :=
    { role := "user", prompt := EVAL_PROMPT, mime_type := mime_type,
      data := b64encode video_bytes, temperature := 2/10,
      responseMimeType := "application/json" }
  let t := retryLoop attempts
  let res : Except PyError Json :=
    match t.exit with
    | .raised e => .error e
    | .broke r => postProcess loads r
    | .fellThrough (some r) => postProcess loads r
    | .fellThrough none =>
      .error (.nameError "name \x27resp\x27 is not defined")
  { payload := payload, result := res, calls := t.calls, sleeps := t.sleeps }

/-- A `POST /evaluate` request as `evaluate_pitch` observes it: whether the
multipart field `"video"` is present, the bytes `video_file.read()` returns,
and `video_file.mimetype` (`none` models Python `None`). -/
structure EvalRequest where
  hasVideoField : Bool
  videoBytes : List Nat
  mimetype : Option String

/-- `jsonify({"error": msg})`. -/
def errBody (msg : String) : Json := .obj [("error", .str msg)]

/-- Python `video_file.mimetype or "video/mp4"` (src/app.py line 222): the
default applies when the mimetype is `None` or the empty string (both falsy). -/
def mimeOrDefault : Option String → String
  | none => "video/mp4"
  | some "" => "video/mp4"
  | some s => s

/-- The HTTP response `evaluate_pitch` produces, together with the outbound
payload posted (if any), the number of outbound calls, and the sleeps taken. -/
structure EvalResponse where
  status : Nat
  body : Json
  payload : Option GeminiPayload
  calls : Nat
  sleeps : List Nat

/-- `evaluate_pitch` (src/app.py lines 210-234): the whole handler body is
wrapped in `try`, so any exception from the relay becomes the 500 response. -/
def evaluate_pitch (loads : String → Except String Json)
    (attempts : Nat → AttemptOutcome) (req : EvalRequest) : EvalResponse :=
  if req.hasVideoField = false then
    { status := 400, body := errBody "missing \x27video\x27 file field",
      payload := none, calls := 0, sleeps := [] }
  else if req.videoBytes = [] then
    { status := 400, body := errBody "empty video payload",
      payload := none, calls := 0, sleeps := [] }
  else
    let mime_type := mimeOrDefault req.mimetype
    let c := call_gemini_with_video loads attempts req.videoBytes mime_type
    match c.result with
    | .ok result =>
      { status := 200, body := result,
        payload := some c.payload, calls := c.calls, sleeps := c.sleeps }
    | .error e =>
      { status := 500,
        body := .obj [("error", .str "evaluation_failed"),
                      ("message", .str (str_of e))],
        payload := some c.payload, calls := c.calls, sleeps := c.sleeps }

/-- `GET /` (src/app.py lines 205-207). -/
def health : Nat × Json := (200, .obj [("status", .str "pitch-evaluator-ready")])

/-! ### Concrete scenario inputs used by witnesses -/

/-- Fields of a structured verdict object, as the model is instructed to
produce. -/
def ansFields : List (String × Json) :=
  [("structure_score", .num 80), ("presentation_score", .num 85),
   ("clarity_score", .num 78), ("weighted_total", .num 81),
   ("comments", .arr [.str "Sharpen the problem statement",
     .str "Raise energy at the close", .str "State one clear ask"])]

/-- A structured verdict object. -/
def ansObj : Json := .obj ansFields

/-- A well-formed Gemini envelope whose nested answer text is `t`. -/
def envWith (t : String) : Json :=
  .obj [("candidates", .arr [
    .obj [("content", .obj [("parts", .arr [
      .obj [("text", .str t)]])])]])]

/-- The well-formed envelope with answer text `"ans"`. -/
def goodEnv : Json := envWith "ans"

/-- A `json.loads` oracle: `"ans"` parses to `ansObj`, `"[1]"` to an array,
anything else raises a decode error. -/
def loads0 : String → Except String Json := fun s =>
  if s = "ans" then .ok ansObj
  else if s = "[1]" then .ok (.arr [.num 1])
  else .error "Expecting value: line 1 column 1 (char 0)"

/-- A 200 response whose envelope carries answer text `t`. -/
def resp200With (t : String) : HttpResponse :=
  { status := 200, text := "envelope", body := .ok (envWith t) }

/-- The 200 response with answer text `"ans"`. -/
def resp200 : HttpResponse := resp200With "ans"

/-- A 503 response. -/
def resp503 : HttpResponse :=
  { status := 503, text := "The model is overloaded.", body := .error "overloaded" }

/-- A 429 response: non-200, non-503, so never retried. -/
def resp429 : HttpResponse :=
  { status := 429, text := "Too Many Requests", body := .error "rate limited" }

/-- A 200 response whose envelope is a JSON object without `candidates`. -/
def respBadEnv : HttpResponse :=
  { status := 200, text := "\x7b\x7d", body := .ok (.obj []) }

/-- A 200 response whose whole body is not valid JSON. -/
def respBadBody : HttpResponse :=
  { status := 200, text := "<html>Service error</html>",
    body := .error "Expecting value: line 1 column 1 (char 0)" }

/-- Upstream behaviour: 503 on attempts 0 and 1, then 200 with a valid
structured answer. -/
def attemptsC1 : Nat → AttemptOutcome := fun n =>
  if n < 2 then .response resp503 else .response resp200

/-- Upstream behaviour: 503 on every attempt. -/
def attemptsAll503 : Nat → AttemptOutcome := fun _ => .response resp503

/-- Upstream behaviour: a timeout, then a 429 response. -/
def attemptsC3 : Nat → AttemptOutcome := fun n =>
  if n = 0 then .timeout else .response resp429

/-- Upstream behaviour: always 200 with answer text `t`. -/
def attemptsOk (t : String) : Nat → AttemptOutcome := fun _ =>
  .response (resp200With t)

/-- Upstream behaviour: always 200 with an envelope lacking `candidates`. -/
def attemptsBadEnv : Nat → AttemptOutcome := fun _ => .response respBadEnv

/-- Upstream behaviour: always 200 with a non-JSON body. -/
def attemptsBadBody : Nat → AttemptOutcome := fun _ => .response respBadBody

/-- A valid upload request. -/
def req0 : EvalRequest :=
  { hasVideoField := true, videoBytes := [0, 1, 2], mimetype := some "video/webm" }

/-- A request missing the `video` multipart field. -/
def reqNoField : EvalRequest :=
  { hasVideoField := false, videoBytes := [7], mimetype := some "video/mp4" }

/-- A request whose `video` field is present but whose payload is empty, with
a non-video declared media type. -/
def reqEmpty : EvalRequest :=
  { hasVideoField := true, videoBytes := [], mimetype := some "application/pdf" }

/-- A valid upload request that declares no media type. -/
def reqNoMime : EvalRequest :=
  { hasVideoField := true, videoBytes := [0, 1, 2], mimetype := none }

/-! ### Helper lemmas about the retry loop -/

/-- Every delay the retry loop takes is the fixed 5 seconds. -/
theorem loopAux_sleeps_five (attempts : Nat → AttemptOutcome) :
    ∀ fuel attempt last, ∀ d ∈ (loopAux attempts fuel attempt last).sleeps, d = 5 := by
  intro fuel
  induction fuel with
  | zero => intro attempt last d hd; simp [loopAux] at hd
  | succ n ih =>
    intro attempt last d hd
    rcases hA : attempts attempt with r | _ | m
    · rw [loopAux] at hd
      simp only [hA] at hd
      by_cases h1 : r.status = 503 ∧ attempt < max_retries - 1
      · rw [if_pos h1] at hd
        simp only [List.mem_cons] at hd
        rcases hd with hd | hd
        · exact hd
        · exact ih (attempt + 1) (some r) d hd
      · rw [if_neg h1] at hd
        by_cases h2 : r.status ≠ 200
        · rw [if_pos h2] at hd; simp at hd
        · rw [if_neg h2] at hd; simp at hd
    · rw [loopAux] at hd
      simp only [hA] at hd
      by_cases h1 : attempt < max_retries - 1
      · rw [if_pos h1] at hd
        simp only [List.mem_cons] at hd
        rcases hd with hd | hd
        · exact hd
        · exact ih (attempt + 1) last d hd
      · rw [if_neg h1] at hd; simp at hd
    · rw [loopAux] at hd
      simp only [hA] at hd
      simp at hd

/-- Started at any position that can still reach the end of the range, the
loop never falls through without `break`, and a `break` exit carries a
response whose status is 200. -/
theorem loopAux_exit_ok (attempts : Nat → AttemptOutcome) :
    ∀ fuel attempt last, attempt + fuel = max_retries → 0 < fuel →
      (∀ l, (loopAux attempts fuel attempt last).exit ≠ .fellThrough l) ∧
      (∀ r, (loopAux attempts fuel attempt last).exit = .broke r → r.status = 200) := by
  intro fuel
  induction fuel with
  | zero => intro attempt last _ h0; exact absurd h0 (lt_irrefl 0)
  | succ n ih =>
    intro attempt last hsum _
    have hmax : max_retries = 3 := rfl
    rcases hA : attempts attempt with r | _ | m
    · by_cases h1 : r.status = 503 ∧ attempt < max_retries - 1
      · have hn : 0 < n := by rw [hmax] at hsum; have := h1.2; rw [hmax] at this; omega
        have hrec := ih (attempt + 1) (some r) (by omega) hn
        rw [loopAux]
        simp only [hA, if_pos h1]
        exact hrec
      · rw [loopAux]
        simp only [hA, if_neg h1]
        by_cases h2 : r.status ≠ 200
        · rw [if_pos h2]
          exact ⟨fun l h => by simp at h, fun r' h => by simp at h⟩
        · rw [if_neg h2]
          push_neg at h2
          exact ⟨fun l h => by simp at h,
            fun r' h => by simp only [LoopExit.broke.injEq] at h; rw [← h]; exact h2⟩
    · by_cases h1 : attempt < max_retries - 1
      · have hn : 0 < n := by rw [hmax] at hsum; rw [hmax] at h1; omega
        have hrec := ih (attempt + 1) last (by omega) hn
        rw [loopAux]
        simp only [hA, if_pos h1]
        exact hrec
      · rw [loopAux]
        simp only [hA, if_neg h1]
        exact ⟨fun l h => by simp at h, fun r' h => by simp at h⟩
    · rw [loopAux]
      simp only [hA]
      exact ⟨fun l h => by simp at h, fun r' h => by simp at h⟩

/-- Propositional form of the two retry triggers: a 503 response or a
request timeout (src/app.py lines 169, 182). -/
def retryable : AttemptOutcome → Prop
  | .response r => r.status = 503
  | .timeout => True
  | .connectionError _ => False

/-! ### Claim theorems -/

/-- Claim C1: when the upstream answers 503 on the first two attempts and 200
with a valid structured answer on the third, exactly three outbound calls are
made with a fixed 5-second sleep before each retried attempt, and the system
responds 200 with that answer; moreover, in every execution every delay the
retry loop takes equals 5 seconds. -/
theorem evaluate_retries_503_twice_then_succeeds
    (loads : String → Except String Json) (attempts : Nat → AttemptOutcome)
    (req : EvalRequest) (r0 r1 r2 : HttpResponse) (env : Json) (s : String)
    (fields : List (String × Json))
    (hf : req.hasVideoField = true) (hne : req.videoBytes ≠ [])
    (h0 : attempts 0 = .response r0) (hs0 : r0.status = 503)
    (h1 : attempts 1 = .response r1) (hs1 : r1.status = 503)
    (h2 : attempts 2 = .response r2) (hs2 : r2.status = 200)
    (hb : r2.body = .ok env) (hx : extractText env = .ok (.str s))
    (hl : loads s = .ok (.obj fields)) :
    (evaluate_pitch loads attempts req).status = 200 ∧
    (evaluate_pitch loads attempts req).body = .obj fields ∧
    (evaluate_pitch loads attempts req).calls = 3 ∧
    (evaluate_pitch loads attempts req).sleeps = [5, 5] ∧
    ∀ a : Nat → AttemptOutcome, ∀ d ∈ (retryLoop a).sleeps, d = 5 := by
  have hloop : retryLoop attempts =
      { exit := .broke r2, calls := 3, sleeps := [5, 5] } := by
    simp [retryLoop, max_retries, loopAux, h0, h1, h2, hs0, hs1, hs2]
  refine ⟨?_, ?_, ?_, ?_, fun a => loopAux_sleeps_five a max_retries 0 none⟩ <;>
    simp [evaluate_pitch, hf, hne, call_gemini_with_video, hloop, postProcess,
      hb, hx, hl, Json.isObj]

/-- Claim C2: when the upstream answers 503 on every attempt, exactly three
outbound calls are made (no fourth), and the caller gets a 500 response whose
body carries the `evaluation_failed` tag (which mentions failure) and the
last attempt's error as the message. -/
theorem evaluate_exhausts_three_attempts_on_constant_503
    (loads : String → Except String Json) (attempts : Nat → AttemptOutcome)
    (req : EvalRequest) (r0 r1 r2 : HttpResponse)
    (hf : req.hasVideoField = true) (hne : req.videoBytes ≠ [])
    (h0 : attempts 0 = .response r0) (hs0 : r0.status = 503)
    (h1 : attempts 1 = .response r1) (hs1 : r1.status = 503)
    (h2 : attempts 2 = .response r2) (hs2 : r2.status = 503) :
    (evaluate_pitch loads attempts req).calls = 3 ∧
    (evaluate_pitch loads attempts req).status = 500 ∧
    (evaluate_pitch loads attempts req).body =
      .obj [("error", .str "evaluation_failed"),
        ("message", .str ("Gemini API error 503: " ++ pySlice300 r2.text))] ∧
    (∃ a b : String, "evaluation_failed" = a ++ "fail" ++ b) := by
  have hmsg : geminiApiErrorMsg r2 = "Gemini API error 503: " ++ pySlice300 r2.text := by
    rw [geminiApiErrorMsg, hs2]
    rfl
  have hloop : retryLoop attempts =
      { exit := .raised (.runtimeError ("Gemini API error 503: " ++ pySlice300 r2.text)),
        calls := 3, sleeps := [5, 5] } := by
    simp [retryLoop, max_retries, loopAux, h0, h1, h2, hs0, hs1, hs2, hmsg]
  refine ⟨?_, ?_, ?_, ⟨"evaluation_", "ed", rfl⟩⟩ <;>
    simp [evaluate_pitch, hf, hne, call_gemini_with_video, hloop, str_of]

/-- Claim C3: a response whose status is neither 200 nor 503, arriving at any
attempt (after only retryable outcomes), makes the call fail on that very
attempt — no further outbound call — with a `RuntimeError` whose message
carries the status code and the body truncated to at most 300 characters. -/
theorem non_retryable_status_fails_immediately
    (loads : String → Except String Json) (attempts : Nat → AttemptOutcome)
    (vb : List Nat) (mt : String) (k : Nat) (r : HttpResponse)
    (hk : k < max_retries)
    (hpre : ∀ j, j < k → retryable (attempts j))
    (hr : attempts k = .response r)
    (h200 : r.status ≠ 200) (h503 : r.status ≠ 503) :
    (call_gemini_with_video loads attempts vb mt).calls = k + 1 ∧
    (call_gemini_with_video loads attempts vb mt).result =
      .error (.runtimeError
        ("Gemini API error " ++ toString r.status ++ ": " ++ pySlice300 r.text)) ∧
    (pySlice300 r.text).length ≤ 300 := by
  have hlen : (pySlice300 r.text).length ≤ 300 := by
    have h : (pySlice300 r.text).length = (r.text.data.take 300).length := rfl
    rw [h, List.length_take]
    exact min_le_left _ _
  have hmax : max_retries = 3 := rfl
  rw [hmax] at hk
  have hloop : retryLoop attempts =
      { exit := .raised (.runtimeError (geminiApiErrorMsg r)), calls := k + 1,
        sleeps := List.replicate k 5 } := by
    interval_cases k
    · simp [retryLoop, max_retries, loopAux, hr, h200, h503]
    · have hp0 := hpre 0 (by omega)
      rcases hA0 : attempts 0 with r0 | _ | m0 <;> rw [hA0] at hp0 <;>
        simp only [retryable] at hp0
      · simp [retryLoop, max_retries, loopAux, hA0, hp0, hr, h200, h503,
          List.replicate]
      · simp [retryLoop, max_retries, loopAux, hA0, hr, h200, h503,
          List.replicate]
    · have hp0 := hpre 0 (by omega)
      have hp1 := hpre 1 (by omega)
      rcases hA0 : attempts 0 with r0 | _ | m0 <;> rw [hA0] at hp0 <;>
        simp only [retryable] at hp0 <;>
      rcases hA1 : attempts 1 with r1 | _ | m1 <;> rw [hA1] at hp1 <;>
        simp only [retryable] at hp1
      · simp [retryLoop, max_retries, loopAux, hA0, hA1, hp0, hp1, hr, h200,
          h503, List.replicate]
      · simp [retryLoop, max_retries, loopAux, hA0, hA1, hp0, hr, h200, h503,
          List.replicate]
      · simp [retryLoop, max_retries, loopAux, hA0, hA1, hp1, hr, h200, h503,
          List.replicate]
      · simp [retryLoop, max_retries, loopAux, hA0, hA1, hr, h200, h503,
          List.replicate]
  refine ⟨?_, ?_, hlen⟩ <;>
    simp [call_gemini_with_video, hloop, geminiApiErrorMsg]

/-- Claim C4: a 200 response whose decoded envelope lacks the nested
`candidates[0].content.parts[0].text` location (or has it malformed, so that
the subscript chain raises) makes the relay raise the
`Unexpected Gemini response format` error, which the front door maps to a
500 `evaluation_failed` response. -/
theorem bad_envelope_raises_response_format_error
    (loads : String → Except String Json) (attempts : Nat → AttemptOutcome)
    (req : EvalRequest) (r : HttpResponse) (env : Json) (m : String)
    (hf : req.hasVideoField = true) (hne : req.videoBytes ≠ [])
    (h0 : attempts 0 = .response r) (hs : r.status = 200)
    (hb : r.body = .ok env) (hx : extractText env = .error m) :
    (call_gemini_with_video loads attempts req.videoBytes
        (mimeOrDefault req.mimetype)).result =
      .error (.runtimeError ("Unexpected Gemini response format: " ++ m)) ∧
    (evaluate_pitch loads attempts req).status = 500 ∧
    (evaluate_pitch loads attempts req).body =
      .obj [("error", .str "evaluation_failed"),
        ("message", .str ("Unexpected Gemini response format: " ++ m))] := by
  have hloop : retryLoop attempts =
      { exit := .broke r, calls := 1, sleeps := [] } := by
    simp [retryLoop, max_retries, loopAux, h0, hs]
  refine ⟨?_, ?_, ?_⟩ <;>
    simp [evaluate_pitch, hf, hne, call_gemini_with_video, hloop, postProcess,
      hb, hx, str_of]

/-- Claim C5: once a 200 response's envelope yields an answer text `s`, the
relay (a) raises `Gemini did not return valid JSON` when `json.loads` fails
on `s`, (b) raises `Gemini JSON root must be an object` when it parses to a
non-object, and (c) returns the parsed object verbatim — whatever its fields
— when it parses to an object. -/
theorem answer_text_parse_and_root_check
    (loads : String → Except String Json) (attempts : Nat → AttemptOutcome)
    (vb : List Nat) (mt : String) (r : HttpResponse) (env : Json) (s : String)
    (h0 : attempts 0 = .response r) (hs : r.status = 200)
    (hb : r.body = .ok env) (hx : extractText env = .ok (.str s)) :
    (∀ m, loads s = .error m →
      (call_gemini_with_video loads attempts vb mt).result =
        .error (.runtimeError ("Gemini did not return valid JSON: " ++ m))) ∧
    (∀ v, loads s = .ok v → v.isObj = false →
      (call_gemini_with_video loads attempts vb mt).result =
        .error (.runtimeError "Gemini JSON root must be an object")) ∧
    (∀ fields, loads s = .ok (.obj fields) →
      (call_gemini_with_video loads attempts vb mt).result = .ok (.obj fields)) := by
  have hloop : retryLoop attempts =
      { exit := .broke r, calls := 1, sleeps := [] } := by
    simp [retryLoop, max_retries, loopAux, h0, hs]
  refine ⟨fun m hm => ?_, fun v hv hobj => ?_, fun fields hfl => ?_⟩
  · simp [call_gemini_with_video, hloop, postProcess, hb, hx, hm]
  · simp [call_gemini_with_video, hloop, postProcess, hb, hx, hv, hobj]
  · simp [call_gemini_with_video, hloop, postProcess, hb, hx, hfl, Json.isObj]

/-- Claim C6: a request without the multipart `video` field gets 400 with
body `{"error": "missing 'video' file field"}`; a request with the field but
an empty payload gets 400 with body `{"error": "empty video payload"}`,
whatever the declared media type, and in both cases no outbound call is made
(zero calls, no payload posted, no sleeps). -/
theorem missing_or_empty_video_gives_400
    (loads : String → Except String Json) (attempts : Nat → AttemptOutcome) :
    (∀ req : EvalRequest, req.hasVideoField = false →
      evaluate_pitch loads attempts req =
        { status := 400, body := errBody "missing \x27video\x27 file field",
          payload := none, calls := 0, sleeps := [] }) ∧
    (∀ req : EvalRequest, req.hasVideoField = true → req.videoBytes = [] →
      evaluate_pitch loads attempts req =
        { status := 400, body := errBody "empty video payload",
          payload := none, calls := 0, sleeps := [] }) := by
  constructor
  · intro req h
    simp [evaluate_pitch, h]
  · intro req h h2
    simp [evaluate_pitch, h, h2]

/-- Claim C7: for a request that reaches the Relay, a Relay success becomes a
200 response whose body is the returned object unmodified, and a Relay
failure becomes a 500 response with body
`{"error": "evaluation_failed", "message": str(e)}`; and for every request
whatsoever the handler returns (no exception escapes), with status 200, 400
or 500. -/
theorem front_door_maps_relay_outcome
    (loads : String → Except String Json) (attempts : Nat → AttemptOutcome)
    (req : EvalRequest)
    (hf : req.hasVideoField = true) (hne : req.videoBytes ≠ []) :
    (∀ v, (call_gemini_with_video loads attempts req.videoBytes
        (mimeOrDefault req.mimetype)).result = .ok v →
      (evaluate_pitch loads attempts req).status = 200 ∧
      (evaluate_pitch loads attempts req).body = v) ∧
    (∀ e, (call_gemini_with_video loads attempts req.videoBytes
        (mimeOrDefault req.mimetype)).result = .error e →
      (evaluate_pitch loads attempts req).status = 500 ∧
      (evaluate_pitch loads attempts req).body =
        .obj [("error", .str "evaluation_failed"),
          ("message", .str (str_of e))]) ∧
    (∀ r : EvalRequest, (evaluate_pitch loads attempts r).status = 200 ∨
      (evaluate_pitch loads attempts r).status = 400 ∨
      (evaluate_pitch loads attempts r).status = 500) := by
  refine ⟨fun v hv => ?_, fun e he => ?_, fun r => ?_⟩
  · constructor <;> simp [evaluate_pitch, hf, hne, hv]
  · constructor <;> simp [evaluate_pitch, hf, hne, he]
  · by_cases h1 : r.hasVideoField = false
    · right; left; simp [evaluate_pitch, h1]
    · by_cases h2 : r.videoBytes = []
      · right; left; simp [evaluate_pitch, h1, h2]
      · cases hres : (call_gemini_with_video loads attempts r.videoBytes
            (mimeOrDefault r.mimetype)).result with
        | ok v => left; simp [evaluate_pitch, h1, h2, hres]
        | error e => right; right; simp [evaluate_pitch, h1, h2, hres]

/-- Claim C8: when the uploaded file's declared media type is `None` or the
empty string, the outbound request tags the inline media `video/mp4` (the
generic default); and the relay always tags the media with exactly the
`mime_type` it was given. -/
theorem default_mime_type_applied
    (loads : String → Except String Json) (attempts : Nat → AttemptOutcome)
    (req : EvalRequest)
    (hf : req.hasVideoField = true) (hne : req.videoBytes ≠ [])
    (hmt : req.mimetype = none ∨ req.mimetype = some "") :
    (∃ p, (evaluate_pitch loads attempts req).payload = some p ∧
      p.mime_type = "video/mp4") ∧
    (∀ vb mt, (call_gemini_with_video loads attempts vb mt).payload.mime_type = mt) := by
  have hm : mimeOrDefault req.mimetype = "video/mp4" := by
    rcases hmt with h | h <;> simp [mimeOrDefault, h]
  refine ⟨⟨(call_gemini_with_video loads attempts req.videoBytes
      (mimeOrDefault req.mimetype)).payload, ?_, ?_⟩, fun vb mt => rfl⟩
  · cases hres : (call_gemini_with_video loads attempts req.videoBytes
        (mimeOrDefault req.mimetype)).result with
    | ok v => simp [evaluate_pitch, hf, hne, hres]
    | error e => simp [evaluate_pitch, hf, hne, hres]
  · rw [hm]
    rfl

/-- Claim C9: the retry loop never exhausts its range and falls through
without `break` (so the response variable is always bound at the extraction
step), and when it exits via `break` the bound response has status 200 —
every other path raises before extraction. -/
theorem retry_loop_reaches_extraction_only_with_200
    (attempts : Nat → AttemptOutcome) :
    (∀ l, (retryLoop attempts).exit ≠ .fellThrough l) ∧
    (∀ r, (retryLoop attempts).exit = .broke r → r.status = 200) :=
  loopAux_exit_ok attempts max_retries 0 none rfl (by decide)

/-- Claim C10: a 200 response whose whole body fails to decode as JSON makes
`resp.json()` raise outside both wrapping `try` blocks, so the error is the
raw decode error — not the `Unexpected Gemini response format` and not the
`Gemini did not return valid JSON` wrapper — yet the front door still turns
it into the same 500 `evaluation_failed` response. -/
theorem non_json_envelope_propagates_unwrapped
    (loads : String → Except String Json) (attempts : Nat → AttemptOutcome)
    (req : EvalRequest) (r : HttpResponse) (m : String)
    (hf : req.hasVideoField = true) (hne : req.videoBytes ≠ [])
    (h0 : attempts 0 = .response r) (hs : r.status = 200)
    (hb : r.body = .error m) :
    (call_gemini_with_video loads attempts req.videoBytes
        (mimeOrDefault req.mimetype)).result = .error (.jsonDecodeError m) ∧
    (∀ m2, (PyError.jsonDecodeError m) ≠ .runtimeError m2) ∧
    (evaluate_pitch loads attempts req).status = 500 ∧
    (evaluate_pitch loads attempts req).body =
      .obj [("error", .str "evaluation_failed"), ("message", .str m)] := by
  have hloop : retryLoop attempts =
      { exit := .broke r, calls := 1, sleeps := [] } := by
    simp [retryLoop, max_retries, loopAux, h0, hs]
  refine ⟨?_, fun m2 h => by simp at h, ?_, ?_⟩ <;>
    simp [evaluate_pitch, hf, hne, call_gemini_with_video, hloop, postProcess,
      hb, str_of]

/-! ### Witnesses: the claim theorems applied at concrete inputs -/

/-- Witness for claim C1 at the concrete 503/503/200 scenario. -/
theorem evaluate_retries_503_twice_then_succeeds_witness :
    (evaluate_pitch loads0 attemptsC1 req0).status = 200 ∧
    (evaluate_pitch loads0 attemptsC1 req0).body = .obj ansFields ∧
    (evaluate_pitch loads0 attemptsC1 req0).calls = 3 ∧
    (evaluate_pitch loads0 attemptsC1 req0).sleeps = [5, 5] :=
  have h := evaluate_retries_503_twice_then_succeeds loads0 attemptsC1 req0
    resp503 resp503 resp200 goodEnv "ans" ansFields rfl (by decide) rfl rfl rfl
    rfl rfl rfl rfl rfl rfl
  ⟨h.1, h.2.1, h.2.2.1, h.2.2.2.1⟩

/-- Witness for claim C2 at the always-503 scenario. -/
theorem evaluate_exhausts_three_attempts_on_constant_503_witness :
    (evaluate_pitch loads0 attemptsAll503 req0).calls = 3 ∧
    (evaluate_pitch loads0 attemptsAll503 req0).status = 500 ∧
    (evaluate_pitch loads0 attemptsAll503 req0).body =
      .obj [("error", .str "evaluation_failed"),
        ("message", .str ("Gemini API error 503: " ++ pySlice300 resp503.text))] :=
  have h := evaluate_exhausts_three_attempts_on_constant_503 loads0 attemptsAll503
    req0 resp503 resp503 resp503 rfl (by decide) rfl rfl rfl rfl rfl rfl
  ⟨h.1, h.2.1, h.2.2.1⟩

/-- Witness for claim C3: a timeout, then a 429, which fails at once. -/
theorem non_retryable_status_fails_immediately_witness :
    (call_gemini_with_video loads0 attemptsC3 [0, 1, 2] "video/mp4").calls = 2 ∧
    (call_gemini_with_video loads0 attemptsC3 [0, 1, 2] "video/mp4").result =
      .error (.runtimeError ("Gemini API error " ++ toString resp429.status ++
        ": " ++ pySlice300 resp429.text)) ∧
    (pySlice300 resp429.text).length ≤ 300 :=
  non_retryable_status_fails_immediately loads0 attemptsC3 [0, 1, 2] "video/mp4"
    1 resp429 (by decide)
    (fun j hj => by interval_cases j; simp [attemptsC3, retryable])
    rfl (by decide) (by decide)

/-- Witness for claim C4: a 200 envelope without `candidates`. -/
theorem bad_envelope_raises_response_format_error_witness :
    (call_gemini_with_video loads0 attemptsBadEnv req0.videoBytes
        (mimeOrDefault req0.mimetype)).result =
      .error (.runtimeError
        ("Unexpected Gemini response format: " ++ "\x27candidates\x27")) ∧
    (evaluate_pitch loads0 attemptsBadEnv req0).status = 500 ∧
    (evaluate_pitch loads0 attemptsBadEnv req0).body =
      .obj [("error", .str "evaluation_failed"),
        ("message", .str
          ("Unexpected Gemini response format: " ++ "\x27candidates\x27"))] :=
  bad_envelope_raises_response_format_error loads0 attemptsBadEnv req0 respBadEnv
    (.obj []) "\x27candidates\x27" rfl (by decide) rfl rfl rfl rfl

/-- Witness for claim C5: each of the three parse outcomes at a concrete
envelope. -/
theorem answer_text_parse_and_root_check_witness :
    (call_gemini_with_video loads0 (attemptsOk "bogus") [9] "video/mp4").result =
      .error (.runtimeError ("Gemini did not return valid JSON: " ++
        "Expecting value: line 1 column 1 (char 0)")) ∧
    (call_gemini_with_video loads0 (attemptsOk "[1]") [9] "video/mp4").result =
      .error (.runtimeError "Gemini JSON root must be an object") ∧
    (call_gemini_with_video loads0 (attemptsOk "ans") [9] "video/mp4").result =
      .ok (.obj ansFields) :=
  ⟨(answer_text_parse_and_root_check loads0 (attemptsOk "bogus") [9] "video/mp4"
      (resp200With "bogus") (envWith "bogus") "bogus" rfl rfl rfl rfl).1
      "Expecting value: line 1 column 1 (char 0)" rfl,
   (answer_text_parse_and_root_check loads0 (attemptsOk "[1]") [9] "video/mp4"
      (resp200With "[1]") (envWith "[1]") "[1]" rfl rfl rfl rfl).2.1
      (.arr [.num 1]) rfl rfl,
   (answer_text_parse_and_root_check loads0 (attemptsOk "ans") [9] "video/mp4"
      (resp200With "ans") (envWith "ans") "ans" rfl rfl rfl rfl).2.2
      ansFields rfl⟩

/-- Witness for claim C6 at a field-less and at an empty-payload request. -/
theorem missing_or_empty_video_gives_400_witness :
    evaluate_pitch loads0 attemptsC1 reqNoField =
      { status := 400, body := errBody "missing \x27video\x27 file field",
        payload := none, calls := 0, sleeps := [] } ∧
    evaluate_pitch loads0 attemptsC1 reqEmpty =
      { status := 400, body := errBody "empty video payload",
        payload := none, calls := 0, sleeps := [] } :=
  ⟨(missing_or_empty_video_gives_400 loads0 attemptsC1).1 reqNoField rfl,
   (missing_or_empty_video_gives_400 loads0 attemptsC1).2 reqEmpty rfl rfl⟩

/-- Witness for claim C7: success mapped to 200, relay failure mapped to 500,
and a 400 request still inside the 200/400/500 range. -/
theorem front_door_maps_relay_outcome_witness :
    ((evaluate_pitch loads0 attemptsC1 req0).status = 200 ∧
     (evaluate_pitch loads0 attemptsC1 req0).body = ansObj) ∧
    ((evaluate_pitch loads0 attemptsAll503 req0).status = 500 ∧
     (evaluate_pitch loads0 attemptsAll503 req0).body =
       .obj [("error", .str "evaluation_failed"),
         ("message", .str ("Gemini API error 503: " ++ pySlice300 resp503.text))]) ∧
    ((evaluate_pitch loads0 attemptsC1 reqNoField).status = 200 ∨
     (evaluate_pitch loads0 attemptsC1 reqNoField).status = 400 ∨
     (evaluate_pitch loads0 attemptsC1 reqNoField).status = 500) :=
  ⟨(front_door_maps_relay_outcome loads0 attemptsC1 req0 rfl (by decide)).1
      ansObj rfl,
   (front_door_maps_relay_outcome loads0 attemptsAll503 req0 rfl (by decide)).2.1
      (.runtimeError ("Gemini API error 503: " ++ pySlice300 resp503.text)) rfl,
   (front_door_maps_relay_outcome loads0 attemptsC1 req0 rfl (by decide)).2.2
      reqNoField⟩

/-- Witness for claim C8 at a request with no declared media type. -/
theorem default_mime_type_applied_witness :
    (call_gemini_with_video loads0 attemptsC1 [0, 1, 2] "video/mp4").payload.mime_type =
      "video/mp4" :=
  (default_mime_type_applied loads0 attemptsC1 reqNoMime rfl (by decide)
    (Or.inl rfl)).2 [0, 1, 2] "video/mp4"

/-- Witness for claim C9: a concrete run whose loop breaks with status 200. -/
theorem retry_loop_reaches_extraction_only_with_200_witness :
    resp200.status = 200 :=
  (retry_loop_reaches_extraction_only_with_200 attemptsC1).2 resp200 rfl

/-- Witness for claim C10 at a 200 response whose body is not JSON. -/
theorem non_json_envelope_propagates_unwrapped_witness :
    (call_gemini_with_video loads0 attemptsBadBody req0.videoBytes
        (mimeOrDefault req0.mimetype)).result =
      .error (.jsonDecodeError "Expecting value: line 1 column 1 (char 0)") ∧
    (evaluate_pitch loads0 attemptsBadBody req0).status = 500 ∧
    (evaluate_pitch loads0 attemptsBadBody req0).body =
      .obj [("error", .str "evaluation_failed"),
        ("message", .str "Expecting value: line 1 column 1 (char 0)")] :=
  have h := non_json_envelope_propagates_unwrapped loads0 attemptsBadBody req0
    respBadBody "Expecting value: line 1 column 1 (char 0)" rfl (by decide)
    rfl rfl rfl
  ⟨h.1, h.2.2.1, h.2.2.2⟩

end PitchMi
